import Mathlib

/-!
Shallow embedding of `src/bigdata/bench/flink_bench.py`, the Flink SQL
benchmark driver, together with proofs about its job-identity tracking,
poll loop, metrics aggregation, cleanup and error-handling behaviour.

Network and subprocess effects are modelled by explicit world records that
fix the outcome of every external call; each Python function becomes a pure
Lean function of such a world.  Conventions:

* A Python exception raised by an `urllib` call inside a `try` block is
  modelled by the corresponding world field being `none`.
* `subprocess.run(..., check=True)` (the `docker cp` step) is modelled as
  throwing (`Except.error`) on a nonzero exit code; `check=False` (the
  `sql-client.sh` submission) never throws and yields a `returncode`.
* Job statuses are the literal strings used by the code: `"RUNNING"`,
  `"FINISHED"`, `"FAILED"`, `"CANCELED"`, and the local `"UNKNOWN"`.
* Elapsed time is accounted in slept time units: the poll loop sleeps
  `poll_interval` at the start of every iteration, so the elapsed value of
  a run is `poll_interval *` (number of iterations executed).
-/

/-- One entry of the `GET /jobs` listing: a dict `{"id": ..., "status": ...}`. -/
structure Job where
  id : String
  status : String
  deriving DecidableEq, Repr

/-- Per-vertex counters read from `vertices[i]["metrics"]` in a job-detail
response: `read-records`, `write-records`, `read-bytes`, `write-bytes`. -/
structure TaskMetrics where
  read_records : Nat
  write_records : Nat
  read_bytes : Nat
  write_bytes : Nat
  deriving DecidableEq, Repr

/-- The part of the `GET /jobs/{id}` detail response that
`_get_job_metrics` reads: `name`, `duration` (milliseconds), `vertices`. -/
structure JobDetails where
  name : String
  duration : Nat
  vertices : List TaskMetrics
  deriving DecidableEq, Repr

/-- One element of the `metrics["jobs"]` list built by `_get_job_metrics`. -/
structure JobMetrics where
  id : String
  name : String
  status : String
  duration_ms : Nat
  records_in : Nat
  records_out : Nat
  bytes_in : Nat
  bytes_out : Nat
  deriving DecidableEq, Repr

/-- Outcomes of the control-plane queries made by one `_get_job_metrics`
call: the `GET /jobs` listing and the per-job `GET /jobs/{id}` detail
responses (`none` models the HTTP call raising). -/
structure MetricsQuery where
  listing : Option (List Job)
  details : String → Option JobDetails

/-- Control-plane behaviour during one iteration of the poll loop in
`_run_sql_job`: the loop's own `GET /jobs` call and the queries made by the
`_get_job_metrics` call of that iteration. -/
structure Tick where
  pollListing : Option (List Job)
  metricsQuery : MetricsQuery

/-- The mutable locals of the poll loop in `_run_sql_job`:
`job_id`, `final_status`, `final_metrics`.  `final_metrics = none` models
the empty dict `{}`. -/
structure LoopState where
  jobId : Option String
  finalStatus : String
  finalMetrics : Option (List JobMetrics)
  deriving DecidableEq, Repr

/-- World for one `_run_sql_job` call: the exit code of the
`docker cp` step (run with `check=True`), the baseline `GET /jobs`
listing, the `sql-client.sh` submission's `returncode` (run with
`check=False`), and the control-plane behaviour at each poll tick. -/
structure RunWorld where
  cpExit : Nat
  baselineListing : Option (List Job)
  returncode : Int
  ticks : Nat → Tick

/-- The dict returned by `_run_sql_job`. -/
structure SqlJobResult where
  job_name : String
  job_id : Option String
  status : String
  elapsed_sec : Nat
  metrics : Option (List JobMetrics)
  deriving DecidableEq, Repr

/-- The constant `max_wait = 120  # 2 minutes max`. -/
def max_wait : Nat := 120

/-- The constant `poll_interval = 2`. -/
def poll_interval : Nat := 2

/-- The check `status in ["FINISHED", "FAILED", "CANCELED"]`. -/
def isTerminal (s : String) : Bool :=
  s == "FINISHED" || s == "FAILED" || s == "CANCELED"

/-- The identity-resolution scan inside the poll loop of `_run_sql_job`
(lines 273-277): the first listed job whose `id` is not in
`existing_job_ids`. -/
def findNewJob (existing : List String) (jobs : List Job) : Option Job :=
  jobs.find? fun j => !(decide (j.id ∈ existing))

/-- The per-vertex accumulation in `_get_job_metrics` (lines 371-376):
field-wise sums of the vertex counters, starting from zeros. -/
def aggregateTaskMetrics (vertices : List TaskMetrics) : TaskMetrics :=
  vertices.foldl
    (fun acc vm =>
      ⟨acc.read_records + vm.read_records,
       acc.write_records + vm.write_records,
       acc.read_bytes + vm.read_bytes,
       acc.write_bytes + vm.write_bytes⟩)
    ⟨0, 0, 0, 0⟩

/-- The `job_metrics` dict built for one job in `_get_job_metrics`. -/
def buildJobMetrics (j : Job) (d : JobDetails) : JobMetrics :=
  let agg := aggregateTaskMetrics d.vertices
  ⟨j.id, d.name, j.status, d.duration, agg.read_records, agg.write_records,
   agg.read_bytes, agg.write_bytes⟩

/-- The `jobs_to_check` selection of `_get_job_metrics`: with a target id,
the first listed job with that id (the loop breaks after the first match);
otherwise every job whose status is not `CANCELED`. -/
def jobsToCheck (targetJobId : Option String) (jobs : List Job) : List Job :=
  match targetJobId with
  | some t =>
    match jobs.find? (fun j => j.id == t) with
    | some j => [j]
    | none => []
  | none => jobs.filter fun j => j.status != "CANCELED"

/-- The function `_get_job_metrics`: list jobs, select the jobs to check, query each
one's detail and aggregate its vertex counters.  Any raising query makes
the whole call return the empty dict `{}`, modelled as `none`. -/
def _get_job_metrics (q : MetricsQuery) (targetJobId : Option String) :
    Option (List JobMetrics) :=
  match q.listing with
  | none => none
  | some jobs =>
    (jobsToCheck targetJobId jobs).mapM fun j =>
      (q.details j.id).map (buildJobMetrics j)

/-- Initial loop locals of `_run_sql_job`:
`job_id = None`, `final_status = "UNKNOWN"`, `final_metrics = {}`. -/
def initLoopState : LoopState := ⟨none, "UNKNOWN", none⟩

/-- One iteration of the poll loop of `_run_sql_job` (lines 264-301).  The
`Bool` is true when the iteration hits `break` (terminal status observed).
A raising listing call, or a listing with no new job, leaves the state
unchanged; a found new job always overwrites `job_id` and, when its status
is terminal, records `final_status` and that tick's metrics. -/
def pollStep (existing : List String) (t : Tick) (s : LoopState) :
    LoopState × Bool :=
  match t.pollListing with
  | none => (s, false)
  | some jobs =>
    match findNewJob existing jobs with
    | none => (s, false)
    | some nj =>
      let metrics := _get_job_metrics t.metricsQuery (some nj.id)
      let s2 : LoopState := { s with jobId := some nj.id }
      if isTerminal nj.status then
        ({ s2 with finalStatus := nj.status, finalMetrics := metrics }, true)
      else
        (s2, false)

/-- The poll loop: `for _ in range(max_wait // poll_interval)` with `break`
on a terminal status.  Arguments: state, current tick index, remaining
iterations.  Returns the final state and the number of iterations
executed (each of which sleeps `poll_interval`). -/
def pollLoop (existing : List String) (ticks : Nat → Tick) :
    LoopState → Nat → Nat → LoopState × Nat
  | s, _, 0 => (s, 0)
  | s, i, fuel + 1 =>
    let r := pollStep existing (ticks i) s
    if r.2 then (r.1, 1)
    else
      let rest := pollLoop existing ticks r.1 (i + 1) fuel
      (rest.1, rest.2 + 1)

/-- The `existing_job_ids` baseline set (lines 235-243): ids of the
baseline listing, or the empty set when the query raises. -/
def existingIds (w : RunWorld) : List String :=
  (w.baselineListing.getD []).map fun j => j.id

/-- The poll loop of `_run_sql_job` run to completion from the initial
state with the full `max_wait // poll_interval` iteration budget. -/
def loopOutcome (w : RunWorld) : LoopState × Nat :=
  pollLoop (existingIds w) w.ticks initLoopState 0 (max_wait / poll_interval)

/-- The function `_run_sql_job`: copy the SQL file into the container (`check=True`, so
a nonzero exit raises), capture the baseline, submit via `sql-client.sh`
(`check=False`), poll, and apply the zero-exit fallback
(`final_status == "UNKNOWN" and result.returncode == 0`). -/
def _run_sql_job (job_name : String) (w : RunWorld) :
    Except String SqlJobResult :=
  if w.cpExit != 0 then
    .error "docker cp failed"
  else
    let r := loopOutcome w
    let elapsed := poll_interval * r.2
    let finalStatus :=
      if r.1.finalStatus == "UNKNOWN" && w.returncode == 0 then "FINISHED"
      else r.1.finalStatus
    .ok ⟨job_name, r.1.jobId, finalStatus, elapsed, r.1.finalMetrics⟩

/-- World for one `cancel_all_jobs` call: the `GET /jobs` listing (`none`
models it raising) and, per job id, whether the `PATCH /jobs/{id}/cancel`
call raises. -/
structure CancelWorld where
  listing : Option (List Job)
  cancelFails : String → Bool

/-- The cancellation loop of `cancel_all_jobs` (lines 394-401): issue a
cancel request to each `RUNNING` job in listing order; the first raising
request aborts the loop (the single `try` wraps the whole loop).  Returns
the ids to which a cancel request was issued, the raising one included. -/
def cancelLoop (fails : String → Bool) : List Job → List String
  | [] => []
  | j :: rest =>
    if j.status == "RUNNING" then
      if fails j.id then [j.id]
      else j.id :: cancelLoop fails rest
    else cancelLoop fails rest

/-- The function `cancel_all_jobs`: list jobs and run the cancellation loop; every
exception is caught (a warning is printed), so the call always returns. -/
def cancel_all_jobs (w : CancelWorld) : List String :=
  match w.listing with
  | none => []
  | some jobs => cancelLoop w.cancelFails jobs

/-- World for one `run_benchmark` call: the cleanup call's world and the
`_run_sql_job` world of the selected workload. -/
structure BenchWorld where
  cleanup : CancelWorld
  sqlJob : RunWorld

/-- The function `run_benchmark` for a known workload: cleanup (whose outcome is
discarded), settle, then delegate to `_run_sql_job`; the summary block only
prints and the `_run_sql_job` dict is returned unchanged. -/
def run_benchmark (workload : String) (w : BenchWorld) :
    Except String SqlJobResult :=
  let _ := cancel_all_jobs w.cleanup
  _run_sql_job workload w.sqlJob

/-- The summary computation of `run_benchmark` (lines 452-471): when
`metrics["jobs"]` is non-empty, the printed `records_in`, `duration_sec`
and `throughput`.  `records_in` is replaced by the configured record count
whenever the status is `FINISHED`; `duration_sec` is the job-reported
duration when positive, else the elapsed wall clock. -/
def summaryStats (num_records : Nat) (result : SqlJobResult) :
    Option (Nat × ℚ × ℚ) :=
  match result.metrics with
  | some (job :: _) =>
    let records_in :=
      if result.status == "FINISHED" then num_records else job.records_in
    let duration_sec : ℚ :=
      if job.duration_ms > 0 then (job.duration_ms : ℚ) / 1000
      else (result.elapsed_sec : ℚ)
    let throughput : ℚ :=
      if duration_sec > 0 then (records_in : ℚ) / duration_sec else 0
    some (records_in, duration_sec, throughput)
  | _ => none

/-- The throughput formula exactly as the specification words it:
`recordsProcessed / max(jobReportedDurationSeconds, elapsedWallClockSeconds)`
with `recordsProcessed` defaulting to the caller-supplied count only when
the control plane reports zero records. -/
def claimedThroughput (num_records : Nat) (job : JobMetrics)
    (elapsed_sec : Nat) : ℚ :=
  let recordsProcessed :=
    if job.records_in = 0 then num_records else job.records_in
  (recordsProcessed : ℚ) /
    max ((job.duration_ms : ℚ) / 1000) (elapsed_sec : ℚ)

/-- Unfolding of the identity scan on a cons cell. -/
theorem findNewJob_cons (baseline : List String) (j : Job) (rest : List Job) :
    findNewJob baseline (j :: rest) =
      if j.id ∈ baseline then findNewJob baseline rest else some j := by
  by_cases h : j.id ∈ baseline <;> simp [findNewJob, List.find?, h]

/-- The identity scan finds nothing exactly when every listed id is in the
baseline. -/
theorem findNewJob_eq_none_iff (baseline : List String) :
    ∀ jobs : List Job,
      findNewJob baseline jobs = none ↔ ∀ j ∈ jobs, j.id ∈ baseline
  | [] => by simp [findNewJob]
  | j :: rest => by
    rw [findNewJob_cons]
    by_cases h : j.id ∈ baseline
    · simpa [h] using findNewJob_eq_none_iff baseline rest
    · simp [h]

/-- A job found by the identity scan is a new job and everything listed
before it is in the baseline. -/
theorem findNewJob_eq_some (baseline : List String) :
    ∀ jobs nj, findNewJob baseline jobs = some nj →
      nj.id ∉ baseline ∧
        ∃ pre post, jobs = pre ++ nj :: post ∧ ∀ p ∈ pre, p.id ∈ baseline
  | [], nj => by simp [findNewJob]
  | j :: rest, nj => by
    rw [findNewJob_cons]
    by_cases h : j.id ∈ baseline
    · simp only [h, if_true]
      intro hfind
      obtain ⟨hnotin, pre, post, hsplit, hpre⟩ :=
        findNewJob_eq_some baseline rest nj hfind
      refine ⟨hnotin, j :: pre, post, by simp [hsplit], ?_⟩
      intro p hp
      rcases List.mem_cons.mp hp with rfl | hp
      · exact h
      · exact hpre p hp
    · simp only [h, if_false, Option.some.injEq]
      rintro rfl
      exact ⟨h, [], rest, rfl, by simp⟩

/-- C1: the identity resolver returns the first job in the snapshot's
listing order whose id is not in the baseline set, and resolves no job
exactly when every listed id is in the baseline; for baseline `{A, B}` and
current listing `[A, C, B, D]` it returns `C`. -/
theorem identity_resolution (baseline : List String) (current : List Job) :
    (findNewJob baseline current = none ↔ ∀ j ∈ current, j.id ∈ baseline) ∧
    (∀ nj, findNewJob baseline current = some nj →
      nj.id ∉ baseline ∧
        ∃ pre post, current = pre ++ nj :: post ∧ ∀ p ∈ pre, p.id ∈ baseline) ∧
    findNewJob ["A", "B"]
        [⟨"A", "RUNNING"⟩, ⟨"C", "RUNNING"⟩, ⟨"B", "RUNNING"⟩,
         ⟨"D", "RUNNING"⟩] =
      some ⟨"C", "RUNNING"⟩ :=
  ⟨findNewJob_eq_none_iff baseline current,
   findNewJob_eq_some baseline current, by decide⟩

/-- C1 witness: the general clauses of `identity_resolution` applied to the
concrete baseline `{A, B}` and listing `[A, C, B, D]`. -/
theorem identity_resolution_witness :
    (⟨"C", "RUNNING"⟩ : Job).id ∉ ["A", "B"] ∧
      ∃ pre post,
        ([⟨"A", "RUNNING"⟩, ⟨"C", "RUNNING"⟩, ⟨"B", "RUNNING"⟩,
          ⟨"D", "RUNNING"⟩] : List Job) = pre ++ ⟨"C", "RUNNING"⟩ :: post ∧
          ∀ p ∈ pre, p.id ∈ ["A", "B"] :=
  (identity_resolution ["A", "B"]
        [⟨"A", "RUNNING"⟩, ⟨"C", "RUNNING"⟩, ⟨"B", "RUNNING"⟩,
         ⟨"D", "RUNNING"⟩]).2.1
    ⟨"C", "RUNNING"⟩ (by decide)

/-- Folding the vertex accumulator from an arbitrary start adds the
field-wise sums of the list. -/
theorem aggregateTaskMetrics_go (vertices : List TaskMetrics) :
    ∀ acc : TaskMetrics,
      vertices.foldl
        (fun acc vm =>
          (⟨acc.read_records + vm.read_records,
            acc.write_records + vm.write_records,
            acc.read_bytes + vm.read_bytes,
            acc.write_bytes + vm.write_bytes⟩ : TaskMetrics))
        acc =
      ⟨acc.read_records + (vertices.map TaskMetrics.read_records).sum,
       acc.write_records + (vertices.map TaskMetrics.write_records).sum,
       acc.read_bytes + (vertices.map TaskMetrics.read_bytes).sum,
       acc.write_bytes + (vertices.map TaskMetrics.write_bytes).sum⟩ := by
  induction vertices with
  | nil => intro acc; simp
  | cons v rest ih =>
    intro acc
    simp only [List.foldl_cons, List.map_cons, List.sum_cons, ih]
    congr 1 <;> omega

/-- C7: the metrics aggregator maps any list of per-task counters to their
field-wise sums, yields all-zero totals for the empty list, and aggregates
`[{10,5,100,50},{20,0,200,0}]` to `{30,5,300,50}`. -/
theorem metrics_aggregation :
    (∀ tasks : List TaskMetrics,
      aggregateTaskMetrics tasks =
        ⟨(tasks.map TaskMetrics.read_records).sum,
         (tasks.map TaskMetrics.write_records).sum,
         (tasks.map TaskMetrics.read_bytes).sum,
         (tasks.map TaskMetrics.write_bytes).sum⟩) ∧
    aggregateTaskMetrics [] = ⟨0, 0, 0, 0⟩ ∧
    aggregateTaskMetrics [⟨10, 5, 100, 50⟩, ⟨20, 0, 200, 0⟩] =
      ⟨30, 5, 300, 50⟩ := by
  refine ⟨fun tasks => ?_, by decide, by decide⟩
  simpa [aggregateTaskMetrics] using aggregateTaskMetrics_go tasks ⟨0, 0, 0, 0⟩

/-- A terminal status string is never the local `"UNKNOWN"` marker. -/
theorem isTerminal_ne_unknown {s : String} (h : isTerminal s = true) :
    (s == "UNKNOWN") = false := by
  simp only [isTerminal, Bool.or_eq_true, beq_iff_eq] at h
  rcases h with (h | h) | h <;> subst h <;> decide

/-- The poll loop's result does not depend on the submission's exit code. -/
theorem loopOutcome_returncode (w : RunWorld) (rc : Int) :
    loopOutcome { w with returncode := rc } = loopOutcome w := rfl

/-- A tick that lists no new terminal-status job neither breaks the loop
nor changes `final_status` / `final_metrics`. -/
theorem pollStep_no_terminal (existing : List String) (t : Tick)
    (s : LoopState)
    (h : ∀ jobs nj, t.pollListing = some jobs →
      findNewJob existing jobs = some nj → isTerminal nj.status = false) :
    (pollStep existing t s).2 = false ∧
    (pollStep existing t s).1.finalStatus = s.finalStatus ∧
    (pollStep existing t s).1.finalMetrics = s.finalMetrics := by
  unfold pollStep
  cases hL : t.pollListing with
  | none => simp
  | some jobs =>
    cases hF : findNewJob existing jobs with
    | none => simp [hF]
    | some nj =>
      have hnt := h jobs nj hL hF
      simp [hF, hnt]

/-- When no tick ever lists a new terminal-status job, the poll loop uses
its whole iteration budget and leaves `final_status` and `final_metrics`
untouched. -/
theorem pollLoop_no_terminal (existing : List String) (ticks : Nat → Tick)
    (H : ∀ i jobs nj, (ticks i).pollListing = some jobs →
      findNewJob existing jobs = some nj → isTerminal nj.status = false) :
    ∀ (fuel i : Nat) (s : LoopState),
      (pollLoop existing ticks s i fuel).2 = fuel ∧
      (pollLoop existing ticks s i fuel).1.finalStatus = s.finalStatus ∧
      (pollLoop existing ticks s i fuel).1.finalMetrics = s.finalMetrics
  | 0, i, s => by simp [pollLoop]
  | fuel + 1, i, s => by
    obtain ⟨hb, hs, hm⟩ :=
      pollStep_no_terminal existing (ticks i) s (fun jobs nj => H i jobs nj)
    obtain ⟨ih1, ih2, ih3⟩ :=
      pollLoop_no_terminal existing ticks H fuel (i + 1)
        (pollStep existing (ticks i) s).1
    simp only [pollLoop, hb, Bool.false_eq_true, if_false]
    exact ⟨by rw [ih1], by rw [ih2, hs], by rw [ih3, hm]⟩

/-- The poll step can never invalidate "while `final_status` is `UNKNOWN`,
`final_metrics` is still the empty dict". -/
theorem pollStep_unknown_invariant (existing : List String) (t : Tick)
    (s : LoopState) (h : s.finalStatus = "UNKNOWN" → s.finalMetrics = none) :
    (pollStep existing t s).1.finalStatus = "UNKNOWN" →
      (pollStep existing t s).1.finalMetrics = none := by
  unfold pollStep
  cases hL : t.pollListing with
  | none => simpa using h
  | some jobs =>
    cases hF : findNewJob existing jobs with
    | none => simpa [hF] using h
    | some nj =>
      by_cases hT : isTerminal nj.status = true
      · simp only [hF, hT, if_true]
        intro hu
        rw [hu] at hT
        exact absurd hT (by decide)
      · have hT' : isTerminal nj.status = false := by
          cases hx : isTerminal nj.status <;> simp_all
        simpa [hF, hT'] using h


/-- Through any number of iterations, `final_metrics` stays the empty dict
while `final_status` stays `UNKNOWN`. -/
theorem pollLoop_unknown_invariant (existing : List String)
    (ticks : Nat → Tick) :
    ∀ (fuel i : Nat) (s : LoopState),
      (s.finalStatus = "UNKNOWN" → s.finalMetrics = none) →
      ((pollLoop existing ticks s i fuel).1.finalStatus = "UNKNOWN" →
        (pollLoop existing ticks s i fuel).1.finalMetrics = none)
  | 0, i, s, h => by simpa [pollLoop] using h
  | fuel + 1, i, s, h => by
    have hstep := pollStep_unknown_invariant existing (ticks i) s h
    cases hb : (pollStep existing (ticks i) s).2 with
    | true => simpa [pollLoop, hb] using hstep
    | false =>
      simpa [pollLoop, hb] using
        pollLoop_unknown_invariant existing ticks fuel (i + 1)
          (pollStep existing (ticks i) s).1 hstep

/-- With a positive iteration budget the poll loop always executes at
least one iteration (and so sleeps at least once). -/
theorem pollLoop_pos (existing : List String) (ticks : Nat → Tick)
    (s : LoopState) (i fuel : Nat) (h : 0 < fuel) :
    0 < (pollLoop existing ticks s i fuel).2 := by
  cases fuel with
  | zero => omega
  | succ n =>
    cases hb : (pollStep existing (ticks i) s).2 with
    | true => simp [pollLoop, hb]
    | false => simp [pollLoop, hb]

/-- C6: when no tick of the poll loop ever lists a new job with terminal
status, the loop runs for exactly `max_wait / poll_interval` ticks, the
slept time is exactly `max_wait` (neither less nor more), and with a
nonzero submission exit code (no fallback) the result status is
`UNKNOWN` with empty metrics. -/
theorem timeout_exact (name : String) (w : RunWorld)
    (hcp : w.cpExit = 0) (hrc : w.returncode ≠ 0)
    (H : ∀ i jobs nj, (w.ticks i).pollListing = some jobs →
      findNewJob (existingIds w) jobs = some nj →
      isTerminal nj.status = false) :
    (loopOutcome w).2 = max_wait / poll_interval ∧
    poll_interval * (loopOutcome w).2 = max_wait ∧
    _run_sql_job name w =
      .ok ⟨name, (loopOutcome w).1.jobId, "UNKNOWN", max_wait, none⟩ := by
  obtain ⟨h1, h2, h3⟩ :=
    pollLoop_no_terminal (existingIds w) w.ticks H
      (max_wait / poll_interval) 0 initLoopState
  have hout1 : (loopOutcome w).2 = max_wait / poll_interval := h1
  have hout2 : (loopOutcome w).1.finalStatus = "UNKNOWN" := h2
  have hout3 : (loopOutcome w).1.finalMetrics = none := h3
  have helapsed : poll_interval * (loopOutcome w).2 = max_wait := by
    rw [hout1]; decide
  refine ⟨hout1, helapsed, ?_⟩
  have hrc' : (w.returncode == 0) = false := by
    simpa using hrc
  simp only [_run_sql_job, hcp, hout2, hout3, helapsed, hrc',
    Bool.and_false, if_false]
  simp

/-- Control-plane behaviour used by the C6 witness: every tick lists one
new job that stays `RUNNING` forever. -/
def busyTick : Tick := ⟨some [⟨"J1", "RUNNING"⟩], ⟨none, fun _ => none⟩⟩

/-- World used by the C6 witness: clean copy step, empty baseline, failing
submission exit code, never-terminating job. -/
def timeoutWorld : RunWorld := ⟨0, some [], 1, fun _ => busyTick⟩

/-- C6 witness: `timeout_exact` applied to a concrete never-terminating
control plane. -/
theorem timeout_exact_witness :
    (loopOutcome timeoutWorld).2 = max_wait / poll_interval ∧
    poll_interval * (loopOutcome timeoutWorld).2 = max_wait ∧
    _run_sql_job "identity" timeoutWorld =
      .ok ⟨"identity", (loopOutcome timeoutWorld).1.jobId, "UNKNOWN",
        max_wait, none⟩ := by
  refine timeout_exact "identity" timeoutWorld rfl (by decide) ?_
  intro i jobs nj h1 h2
  have hjobs : jobs = [⟨"J1", "RUNNING"⟩] := by
    simpa [timeoutWorld, busyTick] using h1.symm
  subst hjobs
  have hnj : nj = ⟨"J1", "RUNNING"⟩ := by
    simpa [findNewJob, List.find?, existingIds, timeoutWorld] using h2.symm
  subst hnj
  decide

/-- C5: if the poll loop ends with `final_status` still `UNKNOWN` (no
terminal status was ever observed, in particular when no job was ever
resolved or the loop timed out) and the submission invoker reported
success, the result status is overridden to `FINISHED` and the metrics
are the empty dict. -/
theorem fallback_heuristic (name : String) (w : RunWorld)
    (hcp : w.cpExit = 0)
    (hunk : (loopOutcome w).1.finalStatus = "UNKNOWN")
    (hrc : w.returncode = 0) :
    _run_sql_job name w =
      .ok ⟨name, (loopOutcome w).1.jobId, "FINISHED",
        poll_interval * (loopOutcome w).2, none⟩ := by
  have hmet : (loopOutcome w).1.finalMetrics = none :=
    pollLoop_unknown_invariant (existingIds w) w.ticks
      (max_wait / poll_interval) 0 initLoopState (fun _ => rfl) hunk
  simp only [_run_sql_job, hcp, hunk, hrc, hmet]
  simp

/-- Control-plane behaviour shared by several witnesses: every tick lists
no jobs at all. -/
def quietTick : Tick := ⟨some [], ⟨none, fun _ => none⟩⟩

/-- World used by the C5 witness: clean copy step, empty baseline,
successful submission exit code, no job ever listed. -/
def quietWorld : RunWorld := ⟨0, some [], 0, fun _ => quietTick⟩

/-- C5 witness: `fallback_heuristic` applied to a run in which no job was
ever resolved and the submission succeeded. -/
theorem fallback_heuristic_witness :
    _run_sql_job "identity" quietWorld =
      .ok ⟨"identity", (loopOutcome quietWorld).1.jobId, "FINISHED",
        poll_interval * (loopOutcome quietWorld).2, none⟩ :=
  fallback_heuristic "identity" quietWorld rfl (by decide) rfl

/-- C10: when the poll loop records a terminal status, the returned result
carries exactly that status and the metrics captured at the breaking tick,
whatever the submission's exit code is; in particular a job observed
`FAILED` or `CANCELED` is never re-reported as `FINISHED`, because the
zero-exit fallback fires only while the recorded status is `UNKNOWN`. -/
theorem terminal_short_circuit (name : String) (w : RunWorld) (rc : Int)
    (hcp : w.cpExit = 0)
    (hterm : isTerminal (loopOutcome w).1.finalStatus = true) :
    _run_sql_job name { w with returncode := rc } =
      .ok ⟨name, (loopOutcome w).1.jobId, (loopOutcome w).1.finalStatus,
        poll_interval * (loopOutcome w).2, (loopOutcome w).1.finalMetrics⟩ ∧
    ((loopOutcome w).1.finalStatus = "FAILED" ∨
      (loopOutcome w).1.finalStatus = "CANCELED" →
      (loopOutcome w).1.finalStatus ≠ "FINISHED") := by
  have hne := isTerminal_ne_unknown hterm
  constructor
  · have hcp' : ({ w with returncode := rc } : RunWorld).cpExit = 0 := hcp
    simp only [_run_sql_job, loopOutcome_returncode, hcp', hne]
    simp [hcp]
  · rintro (h | h) <;> rw [h] <;> decide

/-- Control-plane behaviour used by the C10 witness: one new job already
`FINISHED`, with discoverable detail metrics. -/
def terminalTick : Tick :=
  ⟨some [⟨"J1", "FINISHED"⟩],
   ⟨some [⟨"J1", "FINISHED"⟩],
    fun _ => some ⟨"flink-job", 5000, [⟨10, 5, 100, 50⟩]⟩⟩⟩

/-- World used by the C10 witness. -/
def terminalWorld : RunWorld := ⟨0, some [], 0, fun _ => terminalTick⟩

/-- C10 witness: `terminal_short_circuit` applied to a run observing a
`FINISHED` job on the first tick, under a nonzero submission exit code. -/
theorem terminal_short_circuit_witness :
    _run_sql_job "identity" { terminalWorld with returncode := 1 } =
      .ok ⟨"identity", (loopOutcome terminalWorld).1.jobId,
        (loopOutcome terminalWorld).1.finalStatus,
        poll_interval * (loopOutcome terminalWorld).2,
        (loopOutcome terminalWorld).1.finalMetrics⟩ ∧
    ((loopOutcome terminalWorld).1.finalStatus = "FAILED" ∨
      (loopOutcome terminalWorld).1.finalStatus = "CANCELED" →
      (loopOutcome terminalWorld).1.finalStatus ≠ "FINISHED") :=
  terminal_short_circuit "identity" terminalWorld 1 rfl (by decide)

/-- World used by the C3 counterexample: the submission invoker reports
failure (exit code 1) and no job ever appears. -/
def failedSubWorld : RunWorld := ⟨0, some [], 1, fun _ => quietTick⟩

/-- C3 counterexample: with a failing submission invoker the code still
polls the job listing for the full `max_wait` budget (elapsed 120 slept
time units, i.e. 60 polls) and returns status `UNKNOWN`, not `FAILED`:
the failure is neither surfaced immediately nor reported as `Failed`. -/
theorem submission_failure_counterexample :
    _run_sql_job "identity" failedSubWorld =
      .ok ⟨"identity", none, "UNKNOWN", 120, none⟩ ∧
    (120 : Nat) = max_wait ∧ "UNKNOWN" ≠ "FAILED" :=
  ⟨rfl, rfl, by decide⟩

/-- C3 amended: the code does not special-case a failing submission
invoker: polling always proceeds (at least one poll tick is slept through
whatever the exit code is), and when the loop records no terminal status a
nonzero exit code yields status `UNKNOWN` with empty metrics, never
`FAILED`. -/
theorem submission_failure_amended (name : String) (w : RunWorld)
    (hcp : w.cpExit = 0) :
    (∃ r, _run_sql_job name w = .ok r ∧ poll_interval ≤ r.elapsed_sec) ∧
    ((loopOutcome w).1.finalStatus = "UNKNOWN" → w.returncode ≠ 0 →
      _run_sql_job name w =
        .ok ⟨name, (loopOutcome w).1.jobId, "UNKNOWN",
          poll_interval * (loopOutcome w).2, none⟩) := by
  have hused : 0 < (loopOutcome w).2 :=
    pollLoop_pos (existingIds w) w.ticks initLoopState 0
      (max_wait / poll_interval) (by decide)
  constructor
  · refine ⟨⟨name, (loopOutcome w).1.jobId,
      (if (loopOutcome w).1.finalStatus == "UNKNOWN" && w.returncode == 0
        then "FINISHED" else (loopOutcome w).1.finalStatus),
      poll_interval * (loopOutcome w).2, (loopOutcome w).1.finalMetrics⟩,
      ?_, ?_⟩
    · simp only [_run_sql_job, hcp]
      simp
    · calc poll_interval = poll_interval * 1 := by omega
        _ ≤ poll_interval * (loopOutcome w).2 :=
          Nat.mul_le_mul_left poll_interval hused
  · intro hunk hrc
    have hmet : (loopOutcome w).1.finalMetrics = none :=
      pollLoop_unknown_invariant (existingIds w) w.ticks
        (max_wait / poll_interval) 0 initLoopState (fun _ => rfl) hunk
    have hrc' : (w.returncode == 0) = false := by simpa using hrc
    simp only [_run_sql_job, hcp, hunk, hmet, hrc']
    simp

/-- C3 witness for the amended claim: at the concrete failing-submission
world the run returns status `UNKNOWN` after the full polling budget. -/
theorem submission_failure_amended_witness :
    _run_sql_job "identity" failedSubWorld =
      .ok ⟨"identity", (loopOutcome failedSubWorld).1.jobId, "UNKNOWN",
        poll_interval * (loopOutcome failedSubWorld).2, none⟩ :=
  (submission_failure_amended "identity" failedSubWorld rfl).2
    (by decide) (by decide)

/-- Metrics queries that always raise, shared by counterexample worlds. -/
def mqNone : MetricsQuery := ⟨none, fun _ => none⟩

/-- Tick sequence used by the C9 counterexample: tick 0 lists a new job
`C`; every later tick lists a second new job `D` before `C`. -/
def switchTicks : Nat → Tick := fun i =>
  if i = 0 then ⟨some [⟨"C", "RUNNING"⟩], mqNone⟩
  else ⟨some [⟨"D", "RUNNING"⟩, ⟨"C", "RUNNING"⟩], mqNone⟩

/-- World used by the C9 counterexample: empty baseline, the
`switchTicks` listings, failing submission exit code. -/
def switchWorld : RunWorld := ⟨0, some [], 1, switchTicks⟩

/-- C9 counterexample: tick 1 of the run resolves `job_id = C`, yet tick 2
of the same run re-resolves it to `D` (the first job of the new listing
not in the baseline), and the result of the full run carries `job_id = D`:
a resolved `JobId` is not fixed for the remainder of the run. -/
theorem resolver_rerun_counterexample :
    (pollLoop [] switchTicks initLoopState 0 1).1.jobId = some "C" ∧
    (pollLoop [] switchTicks initLoopState 0 2).1.jobId = some "D" ∧
    _run_sql_job "identity" switchWorld =
      .ok ⟨"identity", some "D", "UNKNOWN", 120, none⟩ :=
  ⟨rfl, rfl, rfl⟩

/-- C9 amended: the identity scan runs on every tick, not only before the
first resolution: any tick whose listing contains a job not in the
baseline overwrites `job_id` with the first such job of that listing,
whatever `job_id` held before. -/
theorem resolver_every_tick (existing : List String) (t : Tick)
    (s : LoopState) (jobs : List Job) (nj : Job)
    (h1 : t.pollListing = some jobs)
    (h2 : findNewJob existing jobs = some nj) :
    (pollStep existing t s).1.jobId = some nj.id := by
  unfold pollStep
  rw [h1]
  simp only [h2]
  by_cases hT : isTerminal nj.status = true
  · simp [hT]
  · have hT' : isTerminal nj.status = false := by
      cases hx : isTerminal nj.status <;> simp_all
    simp [hT']

/-- C9 witness for the amended claim: tick 2's listing re-resolves the
already-set `job_id = C` to `D`. -/
theorem resolver_every_tick_witness :
    (pollStep [] (switchTicks 1)
      ⟨some "C", "UNKNOWN", none⟩).1.jobId = some "D" :=
  resolver_every_tick [] (switchTicks 1) ⟨some "C", "UNKNOWN", none⟩
    [⟨"D", "RUNNING"⟩, ⟨"C", "RUNNING"⟩] ⟨"D", "RUNNING"⟩ rfl rfl

/-- Cleanup world used by the C2 counterexample: three `RUNNING` jobs, the
cancellation of the first one raises. -/
def cancelFailFirst : CancelWorld :=
  ⟨some [⟨"A", "RUNNING"⟩, ⟨"B", "RUNNING"⟩, ⟨"C", "RUNNING"⟩],
   fun s => s == "A"⟩

/-- C2 counterexample: with three `RUNNING` jobs whose first cancellation
raises, the only cancel request issued is the failing one — the other two
running jobs are never sent cancellation requests, because the single
`try` of `cancel_all_jobs` wraps the whole loop. -/
theorem cleanup_tolerance_counterexample :
    cancel_all_jobs cancelFailFirst = ["A"] ∧
    ¬("B" ∈ cancel_all_jobs cancelFailFirst ∧
      "C" ∈ cancel_all_jobs cancelFailFirst) := by decide

/-- C2 amended: cancellation requests are issued in listing order only up
to and including the first failing one; the running jobs listed after a
failure are skipped, but the exception is caught, so the run always
proceeds to submission with the cleanup outcome discarded. -/
theorem cleanup_first_failure_aborts (fails : String → Bool)
    (pre post : List Job) (f : Job)
    (hpre : ∀ j ∈ pre, j.status = "RUNNING" → fails j.id = false)
    (hf : f.status = "RUNNING") (hfail : fails f.id = true) :
    cancelLoop fails (pre ++ f :: post) =
      ((pre.filter fun j => j.status == "RUNNING").map Job.id) ++ [f.id] ∧
    ∀ (workload : String) (cw : CancelWorld) (rw : RunWorld),
      run_benchmark workload ⟨cw, rw⟩ = _run_sql_job workload rw := by
  refine ⟨?_, fun _ _ _ => rfl⟩
  induction pre with
  | nil => simp [cancelLoop, hf, hfail]
  | cons j rest ih =>
    have ih' := ih fun p hp => hpre p (List.mem_cons_of_mem j hp)
    by_cases hR : j.status = "RUNNING"
    · have hok : fails j.id = false := hpre j (List.mem_cons_self j rest) hR
      simp [cancelLoop, hR, hok, ih', List.filter_cons]
    · have hR' : (j.status == "RUNNING") = false := by simpa using hR
      simp [cancelLoop, hR', ih', List.filter_cons]

/-- C2 witness for the amended claim: with running jobs `X`, `A`, `B`
listed in that order and the cancel of `A` raising, only `X` and `A` get
cancel requests, and the benchmark run still delegates to submission. -/
theorem cleanup_first_failure_aborts_witness :
    cancelLoop (fun s => s == "A")
      ([⟨"X", "RUNNING"⟩, ⟨"Y", "FINISHED"⟩] ++
        ⟨"A", "RUNNING"⟩ :: [⟨"B", "RUNNING"⟩]) = ["X", "A"] ∧
    run_benchmark "identity" ⟨cancelFailFirst, quietWorld⟩ =
      _run_sql_job "identity" quietWorld := by
  have h := cleanup_first_failure_aborts (fun s => s == "A")
    [⟨"X", "RUNNING"⟩, ⟨"Y", "FINISHED"⟩] [⟨"B", "RUNNING"⟩]
    ⟨"A", "RUNNING"⟩ (by decide) rfl rfl
  exact ⟨h.1.trans (by decide), h.2 "identity" cancelFailFirst quietWorld⟩

/-- The job metrics record used by the C4 counterexample: the control
plane reports 500 input records (nonzero) and a 2000 ms duration. -/
def finishedJobMetrics : JobMetrics :=
  ⟨"J1", "flink-job", "FINISHED", 2000, 500, 5, 100, 50⟩

/-- The run result used by the C4 counterexample: status `FINISHED` with
10 elapsed wall-clock time units. -/
def finishedResult : SqlJobResult :=
  ⟨"identity", some "J1", "FINISHED", 10, some [finishedJobMetrics]⟩

/-- C4 counterexample: for a `FINISHED` run with control-plane-reported
records 500 (nonzero), job duration 2 s and wall clock 10 s, and
caller-supplied count 1000, the code reports throughput 500 (it always
replaces the record count by the caller-supplied count and divides by the
job duration alone), while the claimed formula
`recordsProcessed / max(jobDuration, elapsed)` gives 50. -/
theorem throughput_counterexample :
    (summaryStats 1000 finishedResult).map (fun s => s.2.2) = some 500 ∧
    claimedThroughput 1000 finishedJobMetrics 10 = 50 ∧
    (500 : ℚ) ≠ 50 := by
  refine ⟨?_, ?_, by norm_num⟩
  · simp only [summaryStats, finishedResult, finishedJobMetrics]
    norm_num
  · simp only [claimedThroughput, finishedJobMetrics]
    norm_num [max_eq_right]

/-- C4 amended: when the final status is `Finished` and the metrics list
is non-empty, the reported record count is always the caller-supplied
input count (regardless of what the control plane reported), the divisor
is the job-reported duration when positive and the elapsed wall clock
otherwise (not their maximum), and the throughput is their quotient. -/
theorem throughput_amended (num_records : Nat) (r : SqlJobResult)
    (job : JobMetrics) (rest : List JobMetrics)
    (hm : r.metrics = some (job :: rest)) (hs : r.status = "FINISHED") :
    ∃ d t, summaryStats num_records r = some (num_records, d, t) ∧
      (0 < job.duration_ms → d = (job.duration_ms : ℚ) / 1000) ∧
      (job.duration_ms = 0 → d = (r.elapsed_sec : ℚ)) ∧
      (0 < d → t = (num_records : ℚ) / d) ∧ (d ≤ 0 → t = 0) := by
  refine ⟨if job.duration_ms > 0 then (job.duration_ms : ℚ) / 1000
    else (r.elapsed_sec : ℚ), ?_, ?_, ?_, ?_, ?_, ?_⟩
  · exact if h : (if job.duration_ms > 0 then (job.duration_ms : ℚ) / 1000
      else (r.elapsed_sec : ℚ)) > 0 then
        (num_records : ℚ) /
          (if job.duration_ms > 0 then (job.duration_ms : ℚ) / 1000
           else (r.elapsed_sec : ℚ))
      else 0
  · simp only [summaryStats, hm, hs]
    split <;> simp_all
  · intro h; simp [h]
  · intro h; simp [h]
  · intro h; simp [h]
  · intro h
    have : ¬((if job.duration_ms > 0 then (job.duration_ms : ℚ) / 1000
      else (r.elapsed_sec : ℚ)) > 0) := by exact not_lt.mpr h
    simp [this]

/-- C4 witness for the amended claim: at the concrete `FINISHED` result
the summary reports the caller-supplied 1000 records, the 2 s job
duration, and throughput 500. -/
theorem throughput_amended_witness :
    summaryStats 1000 finishedResult = some (1000, 2, 500) := by
  obtain ⟨d, t, h1, h2, h3, h4, h5⟩ :=
    throughput_amended 1000 finishedResult finishedJobMetrics [] rfl rfl
  have hd : d = 2 := by
    rw [h2 (by decide)]
    norm_num [finishedJobMetrics]
  have ht : t = 500 := by
    rw [h4 (by rw [hd]; norm_num), hd]
    norm_num
  rw [h1, hd, ht]

/-- World used by the C8 counterexample: the `docker cp` step (run with
`check=True`) exits nonzero. -/
def cpFailWorld : BenchWorld :=
  ⟨⟨some [], fun _ => false⟩, ⟨1, some [], 0, fun _ => quietTick⟩⟩

/-- C8 counterexample: a failing `docker cp` collaborator call raises past
`run_benchmark`, so a benchmark run invocation does not always return a
result. -/
theorem run_raises_counterexample :
    run_benchmark "identity" cpFailWorld = .error "docker cp failed" := rfl

/-- C8 amended: provided the copy-to-container step succeeds, a benchmark
run always returns a result: every control-plane query failure and any
submission exit code are absorbed, for every cleanup outcome. -/
theorem run_total_amended (workload : String) (w : BenchWorld)
    (hcp : w.sqlJob.cpExit = 0) :
    (run_benchmark workload w).toOption.isSome = true := by
  simp [run_benchmark, _run_sql_job, hcp, Except.toOption]

/-- C8 witness for the amended claim: a concrete run with a failing
cleanup, no job ever listed and a clean copy step returns a result. -/
theorem run_total_amended_witness :
    (run_benchmark "identity"
      ⟨cancelFailFirst, quietWorld⟩).toOption.isSome = true :=
  run_total_amended "identity" ⟨cancelFailFirst, quietWorld⟩ rfl
